import Mathlib

/-!
# Verification of the `FromArgs` derive generator (`src/derive/src/from_args.rs`)

A shallow embedding of the attribute/derive processor that parses `#[pyarg(...)]`
annotations on struct fields and generates argument-binding code.  Syntax-level
inputs (`syn::Meta`, `syn::Attribute`, `syn::Field`, `syn::DeriveInput`) are
embedded as inductives carrying exactly the information the processor inspects;
the generated token stream is embedded as an inductive of the code shapes the
generator can emit.  Diagnostics are embedded as their message strings (source
spans are dropped; no claim concerns them).
-/

namespace FromArgsDerive

/-- A diagnostic is identified by its message (the span is dropped). -/
def Diagnostic := String
deriving DecidableEq, Repr

/-- Embedding of `syn::Lit`: a string literal or any other literal kind.  Only string
literals are treated specially by the processor (`Lit::Str`). -/
inductive Lit where
  | str (s : String)
  | other
deriving DecidableEq, Repr

/-- A `syn::Path`, as its list of segment identifiers.  `path.get_ident()`
succeeds exactly when the path is a single segment. -/
def Path := List String
deriving DecidableEq, Repr

/-- Embedding of `Path::get_ident`: a path is an identifier iff it has exactly one segment. -/
def pathGetIdent : Path → Option String
  | [s] => some s
  | _ => none

/-- Modelled from the spec: `crate::util::path_eq` (the `util` module is not in
`src/`).  It compares an attribute path against a bare identifier name, per the
attribute grammar `annotation(<classification>[, default | default="<expr>"])`
in which every recognized key is a single bare identifier. -/
def path_eq (p : Path) (s : String) : Bool := p = [s]

/-- Embedding of `syn::NestedMeta` with `syn::Meta` inlined: a nested meta item is either a
meta item (`Meta::Path`, `Meta::List`, `Meta::NameValue`) or a literal. -/
inductive NestedMeta where
  | metaPath (p : Path)
  | metaList (p : Path) (nested : List NestedMeta)
  | metaNameValue (p : Path) (l : Lit)
  | lit (l : Lit)
deriving Repr

/-- A field attribute: its path together with its parsed meta item
(`attr.parse_meta()` already applied; the token-level parse is not modelled,
every input considered is syntactically well formed). -/
structure Attribute where
  path : Path
  meta : NestedMeta
deriving Repr

/-- A `rustpython_vm` expression, kept as its source text.  Modelled from the
spec: `default="<expr>"` carries an "expression supplied as a string literal to
be re-parsed as an expression in the host grammar"; the embedding keeps the
text of the expression (`Lit::Str::parse::<Expr>` is not modelled further, no
claim depends on its failure on ill-formed expression text). -/
def Expr := String
deriving DecidableEq, Repr

/-- The kind of the python parameter (`ParameterKind` in the source). -/
inductive ParameterKind where
  | positionalOnly
  | positionalOrKeyword
  | keywordOnly
  | flatten
deriving DecidableEq, Repr

/-- Embedding of `ParameterKind::from_ident`. -/
def ParameterKind.from_ident (ident : String) : Option ParameterKind :=
  match ident with
  | "positional" => some .positionalOnly
  | "any" => some .positionalOrKeyword
  | "named" => some .keywordOnly
  | "flatten" => some .flatten
  | _ => none

/-- Embedding of `DefaultValue`: `None` stands for `quote!(Default::default())`
(a bare `default` flag), `Some e` for an explicit default expression. -/
def DefaultValue := Option Expr
deriving DecidableEq, Repr

/-- Embedding of `ArgAttribute`: the decoded `#[pyarg(...)]` annotation. -/
structure ArgAttribute where
  kind : ParameterKind
  default : Option DefaultValue
deriving DecidableEq, Repr

/-- Embedding of `ArgAttribute::parse_argument`, with the mutated receiver made explicit:
the updated attribute is returned on success. -/
def ArgAttribute.parse_argument (self : ArgAttribute) (arg : NestedMeta) :
    Except Diagnostic ArgAttribute :=
  match self.kind with
  | .flatten => .error "can't put additional arguments on a flatten arg"
  | _ =>
    match arg with
    | .metaPath path =>
      if path_eq path "default" || path_eq path "optional" then
        if self.default.isNone then
          .ok { self with default := some none }
        else
          .ok self
      else
        .error "Unrecognised pyarg attribute"
    | .metaNameValue path l =>
      if path_eq path "default" then
        match self.default with
        | some (some _) => .error "Default already set"
        | _ =>
          match l with
          | .str val => .ok { self with default := some (some val) }
          | _ => .error "Expected string value for default argument"
      else
        .error "Unrecognised pyarg attribute"
    | _ => .error "Unrecognised pyarg attribute"

/-- The diagnostic emitted when the first `#[pyarg(...)]` argument is missing. -/
def noArgsMsg : Diagnostic :=
  "There must be at least one argument to #[pyarg()]"

/-- The diagnostic emitted when the first `#[pyarg(...)]` argument is not a
recognized classification keyword. -/
def badKindMsg : Diagnostic :=
  "The first argument to #[pyarg()] must be the parameter type, either 'positional', 'any', 'named', or 'flatten'."

/-- Embedding of `ArgAttribute::from_attribute`: `none` when the attribute is not `pyarg`;
otherwise the decoded annotation or a diagnostic. -/
def ArgAttribute.from_attribute (attr : Attribute) :
    Option (Except Diagnostic ArgAttribute) :=
  if attr.path = ["pyarg"] then
    some <|
      match attr.meta with
      | .metaList _ nested =>
        match nested with
        | [] => .error noArgsMsg
        | first :: rest =>
          let kind :=
            match first with
            | .metaPath path => (pathGetIdent path).bind ParameterKind.from_ident
            | _ => none
          match kind with
          | none => .error badKindMsg
          | some kind =>
            rest.foldlM ArgAttribute.parse_argument
              { kind := kind, default := none }
      | _ => .error "pyarg must be a list, like #[pyarg(...)]"
  else
    none

/-- A struct field: its identifier (`syn::Field::ident`, present for named
fields) and its attribute list.  The field's type is never inspected. -/
structure Field where
  ident : Option String
  attrs : List Attribute
deriving Repr

/-- Embedding of `str::starts_with`, on the string's character list. -/
def starts_with (s pre : String) : Bool := pre.data.isPrefixOf s.data

/-- Behavior of `stringify!(#name)` for an interpolated `Option<Ident>`: `quote` emits
nothing for `None`, so the stringified name is empty in that case. -/
def stringifyName : Option String → String
  | some n => n
  | none => ""

/-- The retrieval stage of a generated field expression: which operation of the
argument bundle is invoked. -/
inductive Retrieval where
  | takePositional
  | takePositionalKeyword (name : String)
  | takeKeyword (name : String)
deriving DecidableEq, Repr

/-- An `ArgumentError` the generated code can raise on a missing value. -/
inductive MissingErr where
  | tooFewArgs
  | requiredKeywordArgument (name : String)
deriving DecidableEq, Repr

/-- The ending stage of a generated field expression: either substitute a
default expression when the value is absent (`.unwrap_or_else(|| #default)`,
after `FromArgOptional::from_inner`), or raise a missing-argument error
(`.ok_or_else(|| #err)?`). -/
inductive Ending where
  | withDefault (default : Expr)
  | orErr (err : MissingErr)
deriving DecidableEq, Repr

/-- The generated code for one field, as emitted by `generate_field`:

* `phantomData`: `#name: ::std::marker::PhantomData,`
* `flattenCall`: `#name: ::rustpython_vm::function::FromArgs::from_args(vm, args)?,`
* `lookup`: `#name: args.<retrieval>()<middle><ending>,` — the middle stage
  (`.map(|x| TryFromObject::try_from_object(vm, x)).transpose()?`) is identical
  for every lookup and therefore implicit in the constructor. -/
inductive FieldCode where
  | phantomData (name : Option String)
  | flattenCall (name : Option String)
  | lookup (name : Option String) (retr : Retrieval) (ending : Ending)
deriving DecidableEq, Repr

/-- The expression substituted for a bare `default` flag:
`parse_quote!(::std::default::Default::default())`. -/
def defaultDefaultExpr : Expr := "::std::default::Default::default()"

/-- Embedding of `Iterator::collect::<Result<Vec<_>, _>>`: gather results, short-circuiting
on the first error. -/
def collectExcept {ε α : Type} : List (Except ε α) → Except ε (List α)
  | [] => .ok []
  | x :: xs =>
    match x with
    | .error e => .error e
    | .ok a =>
      match collectExcept xs with
      | .error e => .error e
      | .ok as => .ok (a :: as)

/-- Embedding of `generate_field`. -/
def generate_field (field : Field) : Except Diagnostic FieldCode :=
  match collectExcept (field.attrs.filterMap ArgAttribute.from_attribute) with
  | .error e => .error e
  | .ok pyarg_attrs =>
    let attrRes : Except Diagnostic ArgAttribute :=
      match pyarg_attrs with
      | [] => .ok { kind := .positionalOrKeyword, default := none }
      | [a] => .ok a
      | _ => .error "Multiple pyarg attributes on field"
    match attrRes with
    | .error e => .error e
    | .ok attr =>
      if (match field.ident with
          | some name => starts_with name "_phantom"
          | none => false) then
        .ok (.phantomData field.ident)
      else
        match attr.kind with
        | .flatten => .ok (.flattenCall field.ident)
        | kind =>
          let ending : Ending :=
            match attr.default with
            | some default => .withDefault (default.getD defaultDefaultExpr)
            | none =>
              .orErr
                (match kind with
                 | .positionalOnly | .positionalOrKeyword => .tooFewArgs
                 | .keywordOnly =>
                   .requiredKeywordArgument (stringifyName field.ident)
                 | .flatten => .tooFewArgs)
          match kind with
          | .positionalOnly =>
            .ok (.lookup field.ident .takePositional ending)
          | .positionalOrKeyword =>
            .ok (.lookup field.ident
              (.takePositionalKeyword (stringifyName field.ident)) ending)
          | .keywordOnly =>
            .ok (.lookup field.ident
              (.takeKeyword (stringifyName field.ident)) ending)
          | .flatten => .ok (.flattenCall field.ident)

/-- Embedding of `syn::Fields`: the shape of a struct's field list. -/
inductive Fields where
  | named (fields : List Field)
  | unnamed (arity : Nat)
  | unit
deriving Repr

/-- Embedding of `syn::Data`: the shape of the derive input. -/
inductive Data where
  | dataStruct (fields : Fields)
  | dataEnum
  | dataUnion
deriving Repr

/-- Embedding of `syn::DeriveInput`: the annotated declaration.  Generic parameters are
dropped: `split_for_impl` only reproduces them verbatim in the emitted `impl`
header and no claim concerns them. -/
structure DeriveInput where
  ident : String
  data : Data
deriving Repr

/-- The emitted `impl FromArgs for #name` block: the struct name and the
per-field generated expressions of its constructor invocation. -/
structure Output where
  name : String
  fields : List FieldCode
deriving DecidableEq, Repr

/-- Embedding of `impl_from_args`. -/
def impl_from_args (input : DeriveInput) : Except Diagnostic Output :=
  match input.data with
  | .dataStruct (.named fields) =>
    match collectExcept (fields.map generate_field) with
    | .error e => .error e
    | .ok codes => .ok { name := input.ident, fields := codes }
  | _ => .error "FromArgs input must be a struct with named fields"

/-- Helper to build a `#[pyarg(...)]` attribute from its nested argument list. -/
def pyargAttr (nested : List NestedMeta) : Attribute :=
  { path := ["pyarg"], meta := .metaList ["pyarg"] nested }

deriving instance DecidableEq for Except

/-! ## Claim theorems -/

/-- C9: inside a `#[pyarg(...)]` list, the bare modifier keyword `optional` is
accepted as an exact synonym of bare `default`: `parse_argument` treats the two
path arguments identically in every parser state. -/
theorem c9_optional_synonym_of_default (a : ArgAttribute) :
    a.parse_argument (.metaPath ["optional"]) = a.parse_argument (.metaPath ["default"]) := by
  rcases a with ⟨k, d⟩
  cases k <;> simp [ArgAttribute.parse_argument, path_eq]

/-- C8: for every derive input that is not a struct with named fields (tuple
struct, unit struct, enum, or union), generation fails with the shape-mismatch
diagnostic and emits no output. -/
theorem c8_shape_mismatch (input : DeriveInput)
    (h : ∀ fs, input.data ≠ .dataStruct (.named fs)) :
    impl_from_args input = .error "FromArgs input must be a struct with named fields" := by
  rcases input with ⟨ident, d⟩
  match d with
  | .dataStruct (.named fs) => exact absurd rfl (h fs)
  | .dataStruct (.unnamed k) => rfl
  | .dataStruct .unit => rfl
  | .dataEnum => rfl
  | .dataUnion => rfl

/-- C8 witness: an enum input fails with the shape-mismatch diagnostic. -/
theorem c8_shape_mismatch_witness :
    impl_from_args { ident := "Foo", data := .dataEnum }
      = .error "FromArgs input must be a struct with named fields" :=
  c8_shape_mismatch { ident := "Foo", data := .dataEnum } (fun _ h => by cases h)

/-- C1 counterexample: an annotation containing the default modifier twice is
NOT rejected.  `#[pyarg(any, default, default)]` parses successfully (the second
bare `default` is silently ignored), and `#[pyarg(any, default, default = "1")]`
parses successfully with the second form silently overwriting the first. -/
theorem c1_counterexample :
    ArgAttribute.from_attribute
        (pyargAttr [.metaPath ["any"], .metaPath ["default"], .metaPath ["default"]])
      = some (.ok { kind := .positionalOrKeyword, default := some none })
    ∧ ArgAttribute.from_attribute
        (pyargAttr [.metaPath ["any"], .metaPath ["default"],
          .metaNameValue ["default"] (.str "1")])
      = some (.ok { kind := .positionalOrKeyword, default := some (some "1") }) :=
  ⟨rfl, rfl⟩

/-- C1 amended: the "Default already set" diagnostic fires exactly when a
`default = "<expr>"` modifier is parsed while a previous explicit default
expression is already recorded.  A bare `default` modifier never fails: when a
default is already set it silently keeps the existing one.  A `default =
"<expr>"` modifier after a bare `default` silently overwrites it. -/
theorem c1_default_already_set_amended (a : ArgAttribute) (v : String)
    (hk : a.kind ≠ .flatten) :
    a.parse_argument (.metaPath ["default"])
        = .ok { kind := a.kind, default := some (a.default.getD none) }
    ∧ (∀ e, a.default = some (some e) →
        a.parse_argument (.metaNameValue ["default"] (.str v)) = .error "Default already set")
    ∧ ((∀ e, a.default ≠ some (some e)) →
        a.parse_argument (.metaNameValue ["default"] (.str v))
          = .ok { kind := a.kind, default := some (some v) }) := by
  rcases a with ⟨k, d⟩
  cases k
  case flatten => exact absurd rfl hk
  all_goals
    refine ⟨?_, ?_, ?_⟩
    · rcases d with _ | (_ | e) <;>
        simp [ArgAttribute.parse_argument, path_eq, Option.getD]
    · rintro e rfl
      simp [ArgAttribute.parse_argument, path_eq]
    · intro he
      rcases d with _ | (_ | e)
      · simp [ArgAttribute.parse_argument, path_eq]
      · simp [ArgAttribute.parse_argument, path_eq]
      · exact absurd rfl (he e)

/-- C1 amended witness: with an explicit default `"a"` already set, a second
`default = "b"` modifier fails with "Default already set". -/
theorem c1_default_already_set_amended_witness :
    (ArgAttribute.kind { kind := .keywordOnly, default := some (some "a") }) ≠ .flatten
    ∧ ArgAttribute.parse_argument { kind := .keywordOnly, default := some (some "a") }
        (.metaNameValue ["default"] (.str "b")) = .error "Default already set" :=
  ⟨by decide,
    (c1_default_already_set_amended { kind := .keywordOnly, default := some (some "a") } "b"
      (by decide)).2.1 "a" rfl⟩

set_option maxRecDepth 40000 in
/-- C4 counterexample: when the argument list of `#[pyarg()]` is empty, parsing
does fail hard, but the diagnostic is "There must be at least one argument to
#[pyarg()]", whose message names none of the four valid classification
keywords — it does not instruct the valid choices as claimed. -/
theorem c4_counterexample :
    ArgAttribute.from_attribute (pyargAttr []) = some (.error noArgsMsg)
    ∧ ¬ List.IsInfix "positional".data noArgsMsg.data
    ∧ ¬ List.IsInfix "any".data noArgsMsg.data
    ∧ ¬ List.IsInfix "named".data noArgsMsg.data
    ∧ ¬ List.IsInfix "flatten".data noArgsMsg.data :=
  ⟨rfl, by decide, by decide, by decide, by decide⟩

set_option maxRecDepth 40000 in
/-- C4 amended: absence of a first argument and an unrecognized first argument
are both hard errors, but only the unrecognized-first-argument diagnostic
instructs the valid choices (its message names all four classification
keywords); the empty-list diagnostic is "There must be at least one argument
to #[pyarg()]". -/
theorem c4_first_argument_amended (first : NestedMeta) (rest : List NestedMeta)
    (h : (match first with
          | .metaPath path => (pathGetIdent path).bind ParameterKind.from_ident
          | _ => none) = (none : Option ParameterKind)) :
    ArgAttribute.from_attribute (pyargAttr []) = some (.error noArgsMsg)
    ∧ ArgAttribute.from_attribute (pyargAttr (first :: rest)) = some (.error badKindMsg)
    ∧ List.IsInfix "positional".data badKindMsg.data
    ∧ List.IsInfix "any".data badKindMsg.data
    ∧ List.IsInfix "named".data badKindMsg.data
    ∧ List.IsInfix "flatten".data badKindMsg.data := by
  refine ⟨rfl, ?_, by decide, by decide, by decide, by decide⟩
  simp [ArgAttribute.from_attribute, pyargAttr, h]

/-- C4 amended witness: a first argument `bogus` is not a classification
keyword, and `#[pyarg(bogus)]` fails with the instructing diagnostic. -/
theorem c4_first_argument_amended_witness :
    ArgAttribute.from_attribute (pyargAttr [.metaPath ["bogus"]])
      = some (.error badKindMsg) :=
  (c4_first_argument_amended (.metaPath ["bogus"]) [] rfl).2.1

/-- C5 counterexample: a field named `_phantom` annotated `#[pyarg(flatten)]`
does not generate the recursive `FromArgs::from_args` call — the placeholder
special case wins and `PhantomData` is generated instead. -/
theorem c5_counterexample :
    generate_field { ident := some "_phantom", attrs := [pyargAttr [.metaPath ["flatten"]]] }
      = .ok (.phantomData (some "_phantom"))
    ∧ generate_field { ident := some "_phantom", attrs := [pyargAttr [.metaPath ["flatten"]]] }
      ≠ .ok (.flattenCall (some "_phantom")) :=
  ⟨rfl, by decide⟩

/-- C5 amended: for every field annotated `flatten` whose name does not begin
with `_phantom`, the generated expression is the recursive
`FromArgs::from_args(vm, args)` call on the whole remaining argument bundle
(a `_phantom`-named field generates `PhantomData` instead); and any additional
modifier argument after `flatten` in the annotation is rejected at generation
time. -/
theorem c5_flatten_amended (n : String) (hn : starts_with n "_phantom" = false)
    (arg : NestedMeta) (rest : List NestedMeta) :
    generate_field { ident := some n, attrs := [pyargAttr [.metaPath ["flatten"]]] }
      = .ok (.flattenCall (some n))
    ∧ ArgAttribute.from_attribute (pyargAttr (.metaPath ["flatten"] :: arg :: rest))
      = some (.error "can't put additional arguments on a flatten arg") := by
  constructor
  · simp [generate_field, ArgAttribute.from_attribute, pyargAttr, collectExcept,
      pathGetIdent, ParameterKind.from_ident, List.filterMap, hn, pure, Except.pure]
  · rfl

/-- C5 amended witness: field `rest` annotated `flatten` generates the
recursive call, and `#[pyarg(flatten, default)]` is rejected. -/
theorem c5_flatten_amended_witness :
    starts_with "rest" "_phantom" = false
    ∧ generate_field { ident := some "rest", attrs := [pyargAttr [.metaPath ["flatten"]]] }
        = .ok (.flattenCall (some "rest"))
    ∧ ArgAttribute.from_attribute
        (pyargAttr [.metaPath ["flatten"], .metaPath ["default"]])
      = some (.error "can't put additional arguments on a flatten arg") :=
  ⟨by decide, c5_flatten_amended "rest" (by decide) (.metaPath ["default"]) []⟩

/-- C6 counterexample: a field named `_phantom` carrying zero recognized
annotations does not generate the position-or-keyword lookup — it generates
`PhantomData`. -/
theorem c6_counterexample :
    generate_field { ident := some "_phantom", attrs := [] }
      = .ok (.phantomData (some "_phantom"))
    ∧ generate_field { ident := some "_phantom", attrs := [] }
      ≠ .ok (.lookup (some "_phantom") (.takePositionalKeyword "_phantom")
              (.orErr .tooFewArgs)) :=
  ⟨rfl, by decide⟩

/-- C6 amended: for every field carrying zero recognized annotations whose name
does not begin with `_phantom`, generation uses the position-or-keyword
classification with no default: the generated retrieval is the
positional-first-then-named-fallback lookup by the field's name and absence is
the too-few-arguments failure. -/
theorem c6_no_annotation_amended (n : String) (hn : starts_with n "_phantom" = false)
    (attrs : List Attribute)
    (h : attrs.filterMap ArgAttribute.from_attribute = []) :
    generate_field { ident := some n, attrs := attrs }
      = .ok (.lookup (some n) (.takePositionalKeyword n) (.orErr .tooFewArgs)) := by
  simp [generate_field, h, collectExcept, hn, stringifyName]

/-- C6 amended witness: field `count` with only a non-`pyarg` attribute
generates the position-or-keyword lookup with the too-few-arguments failure. -/
theorem c6_no_annotation_amended_witness :
    starts_with "count" "_phantom" = false
    ∧ generate_field { ident := some "count", attrs := [{ path := ["doc"], meta := .lit .other }] }
        = .ok (.lookup (some "count") (.takePositionalKeyword "count") (.orErr .tooFewArgs)) :=
  ⟨by decide,
    c6_no_annotation_amended "count" (by decide) [{ path := ["doc"], meta := .lit .other }] rfl⟩

/-- C2 counterexample: a field named `_phantom_x` annotated `#[pyarg(named)]`
with no default modifier does not map absence to the
missing-required-keyword-argument failure — the placeholder special case wins
and `PhantomData` is generated, with no failure kind at all. -/
theorem c2_counterexample :
    generate_field { ident := some "_phantom_x", attrs := [pyargAttr [.metaPath ["named"]]] }
      = .ok (.phantomData (some "_phantom_x"))
    ∧ generate_field { ident := some "_phantom_x", attrs := [pyargAttr [.metaPath ["named"]]] }
      ≠ .ok (.lookup (some "_phantom_x") (.takeKeyword "_phantom_x")
              (.orErr (.requiredKeywordArgument "_phantom_x"))) :=
  ⟨rfl, by decide⟩

/-- C2 amended: for every field with an annotation and no default modifier
whose name does not begin with `_phantom`, absence of a value maps to a
failure kind determined by classification: positional-only and
position-or-keyword produce the too-few-positional-arguments kind, while
keyword-only produces the distinct missing-required-keyword-argument kind
carrying the field's name (a `_phantom`-named field generates `PhantomData`
instead). -/
theorem c2_missing_required_failure_kinds (f : Field) (n : String) (attr : ArgAttribute)
    (hident : f.ident = some n) (hn : starts_with n "_phantom" = false)
    (hparse : collectExcept (f.attrs.filterMap ArgAttribute.from_attribute) = .ok [attr])
    (hd : attr.default = none) :
    (attr.kind = .positionalOnly →
      generate_field f = .ok (.lookup (some n) .takePositional (.orErr .tooFewArgs)))
    ∧ (attr.kind = .positionalOrKeyword →
      generate_field f = .ok (.lookup (some n) (.takePositionalKeyword n) (.orErr .tooFewArgs)))
    ∧ (attr.kind = .keywordOnly →
      generate_field f = .ok (.lookup (some n) (.takeKeyword n)
        (.orErr (.requiredKeywordArgument n)))) := by
  rcases attr with ⟨k, d⟩
  obtain rfl : d = none := hd
  refine ⟨fun hk => ?_, fun hk => ?_, fun hk => ?_⟩
  · obtain rfl : k = .positionalOnly := hk
    simp [generate_field, hparse, hident, hn, stringifyName]
  · obtain rfl : k = .positionalOrKeyword := hk
    simp [generate_field, hparse, hident, hn, stringifyName]
  · obtain rfl : k = .keywordOnly := hk
    simp [generate_field, hparse, hident, hn, stringifyName]

/-- C2 witness: a required keyword-only field `y` yields the
missing-required-keyword failure carrying `y`; a required positional-only field
`x` yields the too-few-arguments failure. -/
theorem c2_missing_required_failure_kinds_witness :
    starts_with "y" "_phantom" = false
    ∧ generate_field { ident := some "y", attrs := [pyargAttr [.metaPath ["named"]]] }
        = .ok (.lookup (some "y") (.takeKeyword "y") (.orErr (.requiredKeywordArgument "y")))
    ∧ generate_field { ident := some "x", attrs := [pyargAttr [.metaPath ["positional"]]] }
        = .ok (.lookup (some "x") .takePositional (.orErr .tooFewArgs)) :=
  ⟨by decide,
    (c2_missing_required_failure_kinds
      { ident := some "y", attrs := [pyargAttr [.metaPath ["named"]]] } "y"
      { kind := .keywordOnly, default := none } rfl (by decide) rfl rfl).2.2 rfl,
    (c2_missing_required_failure_kinds
      { ident := some "x", attrs := [pyargAttr [.metaPath ["positional"]]] } "x"
      { kind := .positionalOnly, default := none } rfl (by decide) rfl rfl).1 rfl⟩

/-- C3 counterexample: a field named `_phantom_y` annotated
`#[pyarg(any, default = "5")]` does not resolve absence to the supplied
expression `5` — the placeholder special case wins and `PhantomData` is
generated, so the expression is never evaluated. -/
theorem c3_counterexample :
    generate_field
        { ident := some "_phantom_y",
          attrs := [pyargAttr [.metaPath ["any"], .metaNameValue ["default"] (.str "5")]] }
      = .ok (.phantomData (some "_phantom_y"))
    ∧ generate_field
        { ident := some "_phantom_y",
          attrs := [pyargAttr [.metaPath ["any"], .metaNameValue ["default"] (.str "5")]] }
      ≠ .ok (.lookup (some "_phantom_y") (.takePositionalKeyword "_phantom_y")
              (.withDefault "5")) :=
  ⟨rfl, by decide⟩

/-- C3 amended: for every annotated field with a default modifier whose name
does not begin with `_phantom`, absence of a value resolves the field instead
of failing: with `default = "<expr>"` the generated ending substitutes exactly
the supplied expression, and with a bare `default` it substitutes the type's
generic default expression `::std::default::Default::default()` (a
`_phantom`-named field generates `PhantomData` instead). -/
theorem c3_default_resolution (f : Field) (n : String) (attr : ArgAttribute)
    (hident : f.ident = some n) (hn : starts_with n "_phantom" = false)
    (hparse : collectExcept (f.attrs.filterMap ArgAttribute.from_attribute) = .ok [attr])
    (hk : attr.kind ≠ .flatten) :
    (∀ e, attr.default = some (some e) →
      ∃ r, generate_field f = .ok (.lookup (some n) r (.withDefault e)))
    ∧ (attr.default = some none →
      ∃ r, generate_field f = .ok (.lookup (some n) r (.withDefault defaultDefaultExpr))) := by
  rcases attr with ⟨k, d⟩
  constructor
  · rintro e hd
    obtain rfl : d = some (some e) := hd
    cases k
    case flatten => exact absurd rfl hk
    case positionalOnly =>
      exact ⟨.takePositional, by simp [generate_field, hparse, hident, hn, stringifyName]⟩
    case positionalOrKeyword =>
      exact ⟨.takePositionalKeyword n,
        by simp [generate_field, hparse, hident, hn, stringifyName]⟩
    case keywordOnly =>
      exact ⟨.takeKeyword n, by simp [generate_field, hparse, hident, hn, stringifyName]⟩
  · intro hd
    obtain rfl : d = some none := hd
    cases k
    case flatten => exact absurd rfl hk
    case positionalOnly =>
      exact ⟨.takePositional, by simp [generate_field, hparse, hident, hn, stringifyName]⟩
    case positionalOrKeyword =>
      exact ⟨.takePositionalKeyword n,
        by simp [generate_field, hparse, hident, hn, stringifyName]⟩
    case keywordOnly =>
      exact ⟨.takeKeyword n, by simp [generate_field, hparse, hident, hn, stringifyName]⟩

/-- C3 witness: field `verbose` annotated `named, default = "false"` resolves
absence to the expression `false`; field `level` annotated `any, default`
resolves absence to the generic default expression. -/
theorem c3_default_resolution_witness :
    starts_with "verbose" "_phantom" = false
    ∧ (∃ r, generate_field
        { ident := some "verbose",
          attrs := [pyargAttr [.metaPath ["named"], .metaNameValue ["default"] (.str "false")]] }
        = .ok (.lookup (some "verbose") r (.withDefault "false")))
    ∧ (∃ r, generate_field
        { ident := some "level",
          attrs := [pyargAttr [.metaPath ["any"], .metaPath ["default"]]] }
        = .ok (.lookup (some "level") r (.withDefault defaultDefaultExpr))) :=
  ⟨by decide,
    (c3_default_resolution
      { ident := some "verbose",
        attrs := [pyargAttr [.metaPath ["named"], .metaNameValue ["default"] (.str "false")]] }
      "verbose" { kind := .keywordOnly, default := some (some "false") }
      rfl (by decide) rfl (by decide)).1 "false" rfl,
    (c3_default_resolution
      { ident := some "level", attrs := [pyargAttr [.metaPath ["any"], .metaPath ["default"]]] }
      "level" { kind := .positionalOrKeyword, default := some none }
      rfl (by decide) rfl (by decide)).2 rfl⟩

/-- C7: for every non-flatten, non-placeholder field, the generated retrieval
stage matches the classification exactly: `positional` generates the pure
positional-slot lookup, `any` the positional-first-then-named-fallback lookup
by the field's name, and `named` the named-only lookup by the field's name. -/
theorem c7_retrieval_matches_classification (f : Field) (n : String) (attr : ArgAttribute)
    (hident : f.ident = some n) (hn : starts_with n "_phantom" = false)
    (hparse : collectExcept (f.attrs.filterMap ArgAttribute.from_attribute) = .ok [attr]) :
    (attr.kind = .positionalOnly →
      ∃ e, generate_field f = .ok (.lookup (some n) .takePositional e))
    ∧ (attr.kind = .positionalOrKeyword →
      ∃ e, generate_field f = .ok (.lookup (some n) (.takePositionalKeyword n) e))
    ∧ (attr.kind = .keywordOnly →
      ∃ e, generate_field f = .ok (.lookup (some n) (.takeKeyword n) e)) := by
  rcases attr with ⟨k, d⟩
  refine ⟨fun hk => ?_, fun hk => ?_, fun hk => ?_⟩
  · obtain rfl : k = .positionalOnly := hk
    rcases d with _ | dv
    · exact ⟨.orErr .tooFewArgs, by simp [generate_field, hparse, hident, hn, stringifyName]⟩
    · exact ⟨.withDefault (dv.getD defaultDefaultExpr),
        by simp [generate_field, hparse, hident, hn, stringifyName]⟩
  · obtain rfl : k = .positionalOrKeyword := hk
    rcases d with _ | dv
    · exact ⟨.orErr .tooFewArgs, by simp [generate_field, hparse, hident, hn, stringifyName]⟩
    · exact ⟨.withDefault (dv.getD defaultDefaultExpr),
        by simp [generate_field, hparse, hident, hn, stringifyName]⟩
  · obtain rfl : k = .keywordOnly := hk
    rcases d with _ | dv
    · exact ⟨.orErr (.requiredKeywordArgument n),
        by simp [generate_field, hparse, hident, hn, stringifyName]⟩
    · exact ⟨.withDefault (dv.getD defaultDefaultExpr),
        by simp [generate_field, hparse, hident, hn, stringifyName]⟩

/-- C7 witness: a `positional` field `x` retrieves through the pure positional
slot. -/
theorem c7_retrieval_matches_classification_witness :
    starts_with "x" "_phantom" = false
    ∧ ∃ e, generate_field { ident := some "x", attrs := [pyargAttr [.metaPath ["positional"]]] }
        = .ok (.lookup (some "x") .takePositional e) :=
  ⟨by decide,
    (c7_retrieval_matches_classification
      { ident := some "x", attrs := [pyargAttr [.metaPath ["positional"]]] } "x"
      { kind := .positionalOnly, default := none } rfl (by decide) rfl).1 rfl⟩

/-- C10: for every field whose name starts with `_phantom`, the attribute list
is still parsed and validated before the placeholder special case applies: a
diagnostic from attribute parsing aborts generation, as does the
multiple-pyarg-attributes check; only when validation succeeds (zero or one
pyarg attribute) does the field unconditionally generate the `PhantomData`
value, ignoring its classification and default. -/
theorem c10_phantom_validated_first (n : String) (hn : starts_with n "_phantom" = true)
    (f : Field) (hident : f.ident = some n) :
    (∀ e, collectExcept (f.attrs.filterMap ArgAttribute.from_attribute) = .error e →
      generate_field f = .error e)
    ∧ (∀ attrs, collectExcept (f.attrs.filterMap ArgAttribute.from_attribute) = .ok attrs →
        2 ≤ attrs.length →
        generate_field f = .error "Multiple pyarg attributes on field")
    ∧ (∀ attrs, collectExcept (f.attrs.filterMap ArgAttribute.from_attribute) = .ok attrs →
        attrs.length ≤ 1 →
        generate_field f = .ok (.phantomData (some n))) := by
  refine ⟨?_, ?_, ?_⟩
  · intro e he
    simp [generate_field, he]
  · rintro (_ | ⟨a, _ | ⟨b, l⟩⟩) hok hlen
    · exact absurd hlen (by decide)
    · simp only [List.length_cons, List.length_nil] at hlen
      omega
    · simp [generate_field, hok]
  · rintro (_ | ⟨a, _ | ⟨b, l⟩⟩) hok hlen
    · simp [generate_field, hok, hident, hn]
    · simp [generate_field, hok, hident, hn]
    · simp only [List.length_cons] at hlen
      omega

/-- C10 witness: on a `_phantom_x` field, a malformed annotation and a
duplicated annotation both abort generation, while a validated `flatten`
annotation is ignored in favor of `PhantomData`. -/
theorem c10_phantom_validated_first_witness :
    starts_with "_phantom_x" "_phantom" = true
    ∧ generate_field { ident := some "_phantom_x", attrs := [pyargAttr [.metaPath ["bogus"]]] }
        = .error badKindMsg
    ∧ generate_field
        { ident := some "_phantom_x",
          attrs := [pyargAttr [.metaPath ["any"]], pyargAttr [.metaPath ["named"]]] }
        = .error "Multiple pyarg attributes on field"
    ∧ generate_field { ident := some "_phantom_x", attrs := [pyargAttr [.metaPath ["flatten"]]] }
        = .ok (.phantomData (some "_phantom_x")) :=
  ⟨by decide,
    (c10_phantom_validated_first "_phantom_x" (by decide)
      { ident := some "_phantom_x", attrs := [pyargAttr [.metaPath ["bogus"]]] } rfl).1
      badKindMsg rfl,
    (c10_phantom_validated_first "_phantom_x" (by decide)
      { ident := some "_phantom_x",
        attrs := [pyargAttr [.metaPath ["any"]], pyargAttr [.metaPath ["named"]]] } rfl).2.1
      [{ kind := .positionalOrKeyword, default := none },
       { kind := .keywordOnly, default := none }] rfl (by decide),
    (c10_phantom_validated_first "_phantom_x" (by decide)
      { ident := some "_phantom_x", attrs := [pyargAttr [.metaPath ["flatten"]]] } rfl).2.2
      [{ kind := .flatten, default := none }] rfl (by decide)⟩

end FromArgsDerive
